import Mathlib

/-!
Verification of the edgedb-go connection core: the wire-buffer message
reader and writer, the connect handshake state machine, the SCRAM
authentication conversation driver, and credentials validation.

Bytes are modelled as `Nat` values (each in 0..255 on the wire); machine
integers are assembled big-endian as plain naturals. A Go panic (buffer
underrun, finishing a message with unread bytes, reading with no buffered
message) is modelled as `Option.none` at the operation level and as the
`Err.bufferViolation` outcome at the state-machine level. Fallible Go
returns are `Except`.
-/

/-- Big-endian value of a byte list: fold each byte into the accumulator. -/
def beVal (l : List Nat) : Nat :=
  l.foldl (fun acc b => acc * 256 + b) 0

/-- Modelled from the spec: a read-side Message view is a (type tag, byte
slice) pair sliced out of the stream (the buff reader implementation is
not part of the sources, only its tests; behavior follows section 4.1 of
the spec and the reader tests). The Go field `Type` is `msgType` here. -/
structure Message where
  msgType : Nat
  bts : List Nat
  deriving DecidableEq, Repr

/-- Modelled from the spec: `discard(n)` skips n bytes and fails
(underrun, modelled as `none`) if fewer than n bytes remain. -/
def Message.Discard (m : Message) (n : Nat) : Option Message :=
  if m.bts.length < n then none
  else some { m with bts := m.bts.drop n }

/-- Modelled from the spec: pop a w-byte big-endian unsigned integer;
fails (underrun) if fewer than w bytes remain. -/
def popBE (w : Nat) (m : Message) : Option (Nat × Message) :=
  if m.bts.length < w then none
  else some (beVal (m.bts.take w), { m with bts := m.bts.drop w })

/-- Modelled from the spec: pop one byte. -/
def Message.PopUint8 (m : Message) : Option (Nat × Message) := popBE 1 m

/-- Modelled from the spec: pop a 2-byte big-endian unsigned integer. -/
def Message.PopUint16 (m : Message) : Option (Nat × Message) := popBE 2 m

/-- Modelled from the spec: pop a 4-byte big-endian unsigned integer. -/
def Message.PopUint32 (m : Message) : Option (Nat × Message) := popBE 4 m

/-- Modelled from the spec: pop an 8-byte big-endian unsigned integer. -/
def Message.PopUint64 (m : Message) : Option (Nat × Message) := popBE 8 m

/-- Modelled from the spec: pop a fixed 16-byte UUID, byte order
preserved exactly as received. -/
def Message.PopUUID (m : Message) : Option (List Nat × Message) :=
  if m.bts.length < 16 then none
  else some (m.bts.take 16, { m with bts := m.bts.drop 16 })

/-- Modelled from the spec: pop a 4-byte big-endian length prefix, then
exactly that many bytes; a prefix describing more bytes than remain is a
buffer-underrun failure. -/
def Message.PopBytes (m : Message) : Option (List Nat × Message) :=
  match m.PopUint32 with
  | none => none
  | some (n, m1) =>
    if m1.bts.length < n then none
    else some (m1.bts.take n, { m1 with bts := m1.bts.drop n })

/-- Modelled from the spec: pop a length-prefixed UTF-8 string; the byte
content is kept as the byte list (Go string values are byte strings). -/
def Message.PopString (m : Message) : Option (List Nat × Message) :=
  m.PopBytes

/-- The panic text used by `Finish` when unread bytes remain, naming the
message type tag in lowercase hexadecimal, as in the reader tests. -/
def finishErrorMsg (t : Nat) : String :=
  "cannot finish: unread data in buffer (message type: 0x"
    ++ String.mk (Nat.toDigits 16 t) ++ ")"

/-- Modelled from the spec: `finish()` asserts the current message has
been fully consumed; it fails loudly, naming the message type, when
unconsumed bytes remain. -/
def Message.Finish (m : Message) : Except String Unit :=
  if m.bts.isEmpty then Except.ok ()
  else Except.error (finishErrorMsg m.msgType)

/-- The pop and discard operations of the message reader, as one tagged
family so underrun safety can be stated uniformly. -/
inductive ReadOp
  | discardOp (n : Nat)
  | popUint8Op
  | popUint16Op
  | popUint32Op
  | popUint64Op
  | popUUIDOp
  | popBytesOp
  | popStringOp
  deriving DecidableEq, Repr

/-- Run a read operation on a message, keeping only the advanced reader
state (returned values are dropped; `none` is the panic outcome). -/
def ReadOp.run : ReadOp → Message → Option Message
  | .discardOp n, m => m.Discard n
  | .popUint8Op, m => (m.PopUint8).map Prod.snd
  | .popUint16Op, m => (m.PopUint16).map Prod.snd
  | .popUint32Op, m => (m.PopUint32).map Prod.snd
  | .popUint64Op, m => (m.PopUint64).map Prod.snd
  | .popUUIDOp, m => (m.PopUUID).map Prod.snd
  | .popBytesOp, m => (m.PopBytes).map Prod.snd
  | .popStringOp, m => (m.PopString).map Prod.snd

/-- The number of bytes a read operation requires of the given message:
the fixed width for scalar pops, the requested count for discard, and
for the length-prefixed pops the 4 prefix bytes plus the byte count the
prefix itself declares. -/
def ReadOp.byteDemand : ReadOp → Message → Nat
  | .discardOp n, _ => n
  | .popUint8Op, _ => 1
  | .popUint16Op, _ => 2
  | .popUint32Op, _ => 4
  | .popUint64Op, _ => 8
  | .popUUIDOp, _ => 16
  | .popBytesOp, m => 4 + beVal (m.bts.take 4)
  | .popStringOp, m => 4 + beVal (m.bts.take 4)

/-- C2: every pop or discard operation fails (returns the panic outcome
`none`) exactly when fewer bytes remain in the current message than the
operation requires, the length-prefixed pops counting the byte count
their prefix declares; no partial or truncated value is ever produced. -/
theorem readop_underrun_safety (op : ReadOp) (m : Message) :
    op.run m = none ↔ m.bts.length < op.byteDemand m := by
  cases op with
  | discardOp n =>
    simp only [ReadOp.run, ReadOp.byteDemand, Message.Discard]
    by_cases h : m.bts.length < n <;> simp [h]
  | popUint8Op =>
    simp only [ReadOp.run, ReadOp.byteDemand, Message.PopUint8, popBE]
    by_cases h : m.bts.length < 1 <;> simp [h]
  | popUint16Op =>
    simp only [ReadOp.run, ReadOp.byteDemand, Message.PopUint16, popBE]
    by_cases h : m.bts.length < 2 <;> simp [h]
  | popUint32Op =>
    simp only [ReadOp.run, ReadOp.byteDemand, Message.PopUint32, popBE]
    by_cases h : m.bts.length < 4 <;> simp [h]
  | popUint64Op =>
    simp only [ReadOp.run, ReadOp.byteDemand, Message.PopUint64, popBE]
    by_cases h : m.bts.length < 8 <;> simp [h]
  | popUUIDOp =>
    simp only [ReadOp.run, ReadOp.byteDemand, Message.PopUUID]
    by_cases h : m.bts.length < 16 <;> simp [h]
  | popBytesOp =>
    simp only [ReadOp.run, ReadOp.byteDemand, Message.PopBytes,
      Message.PopUint32, popBE]
    by_cases h : m.bts.length < 4
    · simp only [if_pos h]
      constructor
      · intro _; omega
      · intro _; rfl
    · simp only [if_neg h]
      by_cases h2 : (m.bts.drop 4).length < beVal (m.bts.take 4)
      · simp only [if_pos h2, Option.map_none]
        simp only [List.length_drop] at h2
        constructor
        · intro _; omega
        · intro _; rfl
      · simp only [if_neg h2, Option.map_some]
        simp only [List.length_drop] at h2
        constructor
        · intro hc; exact absurd hc (by simp)
        · intro hlt; omega
  | popStringOp =>
    simp only [ReadOp.run, ReadOp.byteDemand, Message.PopString,
      Message.PopBytes, Message.PopUint32, popBE]
    by_cases h : m.bts.length < 4
    · simp only [if_pos h]
      constructor
      · intro _; omega
      · intro _; rfl
    · simp only [if_neg h]
      by_cases h2 : (m.bts.drop 4).length < beVal (m.bts.take 4)
      · simp only [if_pos h2, Option.map_none]
        simp only [List.length_drop] at h2
        constructor
        · intro _; omega
        · intro _; rfl
      · simp only [if_neg h2, Option.map_some]
        simp only [List.length_drop] at h2
        constructor
        · intro hc; exact absurd hc (by simp)
        · intro hlt; omega

/-- C3: `Finish` succeeds exactly on a fully consumed message, and on a
message with unread bytes it fails with the panic text naming the
message type tag. -/
theorem finish_invariant (m : Message) :
    (m.bts.length = 0 → m.Finish = Except.ok ()) ∧
    (0 < m.bts.length →
      m.Finish = Except.error (finishErrorMsg m.msgType)) := by
  constructor
  · intro h
    simp [Message.Finish, List.isEmpty_iff, List.length_eq_zero.mp h]
  · intro h
    have hne : m.bts ≠ [] := by
      intro hc; rw [hc] at h; exact absurd h (by simp)
    simp [Message.Finish, List.isEmpty_iff, hne]

/-- Witness for C3, at the concrete message of the reader test: type tag
0xa with one unread byte fails naming 0xa; the emptied message
finishes cleanly. -/
theorem finish_invariant_witness :
    (0 < (Message.mk 0xa [0xff]).bts.length ∧
      (Message.mk 0xa [0xff]).Finish = Except.error
        "cannot finish: unread data in buffer (message type: 0xa)") ∧
    ((Message.mk 0xa []).bts.length = 0 ∧
      (Message.mk 0xa []).Finish = Except.ok ()) := by
  refine ⟨⟨by decide, ?_⟩, ⟨rfl, (finish_invariant (Message.mk 0xa [])).1 rfl⟩⟩
  rw [(finish_invariant (Message.mk 0xa [0xff])).2 (by decide)]
  rfl

/-- Big-endian 2-byte encoding of an unsigned 16-bit value. -/
def pushUint16 (v : Nat) : List Nat :=
  [v / 256 % 256, v % 256]

/-- Big-endian 4-byte encoding of an unsigned 32-bit value. -/
def pushUint32 (v : Nat) : List Nat :=
  [v / 16777216 % 256, v / 65536 % 256, v / 256 % 256, v % 256]

/-- Length-prefixed encoding of a string or byte-string value: 4-byte
big-endian length, then the raw bytes, no transformation. -/
def pushStrBytes (s : List Nat) : List Nat :=
  pushUint32 s.length ++ s

/-- The ASCII/UTF-8 bytes of a Lean string literal (used for the ASCII
protocol literals such as "database" and "SCRAM-SHA-256"). -/
def ascii (s : String) : List Nat :=
  s.data.map Char.toNat

/-- Replace the bytes of `l` at positions `p ..= p + repl.length - 1`
with `repl` (the back-patch primitive of the writer). -/
def patchAt (l : List Nat) (p : Nat) (repl : List Nat) : List Nat :=
  l.take p ++ repl ++ l.drop (p + repl.length)

/-- Modelled from the spec: the write side of the wire buffer (the buff
writer implementation is not part of the sources; behavior follows
section 4.1 of the spec). `bts` is the accumulated output; `msgPos` is
the index of the reserved 4-byte length prefix of the open message. -/
structure WriteBuf where
  bts : List Nat
  msgPos : Option Nat
  deriving DecidableEq, Repr

/-- A fresh writer, as produced by `buff.New(nil)`. -/
def WriteBuf.new : WriteBuf := ⟨[], none⟩

/-- Modelled from the spec: append the 1-byte type tag and reserve 4
bytes for the length prefix to be patched by `EndMessage`. -/
def WriteBuf.BeginMessage (b : WriteBuf) (t : Nat) : WriteBuf :=
  ⟨b.bts ++ [t, 0, 0, 0, 0], some (b.bts.length + 1)⟩

/-- Append raw bytes to the writer. -/
def WriteBuf.push (b : WriteBuf) (bytes : List Nat) : WriteBuf :=
  ⟨b.bts ++ bytes, b.msgPos⟩

/-- Modelled from the spec: append a 2-byte big-endian integer. -/
def WriteBuf.PushUint16 (b : WriteBuf) (v : Nat) : WriteBuf :=
  b.push (pushUint16 v)

/-- Modelled from the spec: append a length-prefixed string. -/
def WriteBuf.PushString (b : WriteBuf) (s : List Nat) : WriteBuf :=
  b.push (pushStrBytes s)

/-- Modelled from the spec: back-patch the reserved length field with
the number of bytes written since `BeginMessage`, inclusive of the
4-byte length field itself and exclusive of the type tag. -/
def WriteBuf.EndMessage (b : WriteBuf) : WriteBuf :=
  match b.msgPos with
  | none => b
  | some p => ⟨patchAt b.bts p (pushUint32 (b.bts.length - p)), none⟩

/-- Return the accumulated bytes for transmission. -/
def WriteBuf.Unwrap (b : WriteBuf) : List Nat := b.bts

/-- One complete framed wire message in the layout of section 6 of the
spec: `type:uint8 | length:uint32 (includes these 4 bytes) | payload`. -/
def frameMessage (t : Nat) (payload : List Nat) : List Nat :=
  t :: (pushUint32 (payload.length + 4) ++ payload)

/-- Back-patching a 4-byte replacement at index 1 of a 5-byte header. -/
theorem patchAt_header (t a b c d : Nat) (rest repl : List Nat)
    (h : repl.length = 4) :
    patchAt (t :: a :: b :: c :: d :: rest) 1 repl = t :: (repl ++ rest) := by
  simp only [patchAt, h]
  show [t] ++ repl ++ List.drop 5 (t :: a :: b :: c :: d :: rest)
      = t :: (repl ++ rest)
  simp

/-- A single message composed on a fresh writer unwraps to the framed
layout: `EndMessage` patches the length prefix to the payload length
plus the 4 prefix bytes. -/
theorem endMessage_unwrap (t : Nat) (p : List Nat) :
    (WriteBuf.mk (t :: 0 :: 0 :: 0 :: 0 :: p) (some 1)).EndMessage.Unwrap
      = frameMessage t p := by
  simp only [WriteBuf.EndMessage, WriteBuf.Unwrap, frameMessage]
  have hlen : (t :: 0 :: 0 :: 0 :: 0 :: p).length - 1 = p.length + 4 := by
    simp
  rw [hlen, patchAt_header t 0 0 0 0 p _ (by simp [pushUint32])]

/-- Modelled from the spec: the message type tags of the protocol
(the message package is not part of the sources; the tag values are the
wire values of the protocol, only their distinctness matters here). -/
def ClientHandshake : Nat := 0x56

/-- Modelled from the spec: server-handshake message type tag. -/
def ServerHandshake : Nat := 0x76

/-- Modelled from the spec: server-key-data message type tag. -/
def ServerKeyData : Nat := 0x4b

/-- Modelled from the spec: ready-for-command message type tag. -/
def ReadyForCommand : Nat := 0x5a

/-- Modelled from the spec: authentication message type tag. -/
def Authentication : Nat := 0x52

/-- Modelled from the spec: error-response message type tag. -/
def ErrorResponse : Nat := 0x45

/-- Modelled from the spec: SASL-initial-response message type tag. -/
def AuthenticationSASLInitialResponse : Nat := 0x70

/-- Modelled from the spec: SASL-response message type tag. -/
def AuthenticationSASLResponse : Nat := 0x72

/-- Modelled from the spec: the external SCRAM-SHA-256 conversation
(the scram library is an external collaborator). Its three successive
`Step` calls are modelled as three functions: the initial step deriving
the client-first message, the step on the server-first message deriving
the client-final message, and the step on the server-final message
verifying the identity proof of the server. Wire strings are byte
lists; errors are strings. -/
structure ScramConv where
  stepInitial : Except String (List Nat)
  stepFirst : List Nat → Except String (List Nat)
  stepFinal : List Nat → Except String (List Nat)

/-- The failure outcomes of connect and authenticate. `bufferViolation`
stands for a Go panic of the buffer layer (underrun, unread bytes at
finish, or reading with no buffered message); `errorResponse` carries
the raw payload handed to the external error decoder; `closeFailure` is
an error returned by the transport Close; `scram` is an error of the
external SCRAM library. -/
inductive Err
  | unsupportedVersion (major minor : Nat)
  | closeFailure
  | errorResponse (payload : List Nat)
  | unexpectedMessage (msgType : Nat)
  | unexpectedAuthStatus (status : Nat)
  | scram (e : String)
  | bufferViolation
  deriving DecidableEq, Repr

/-- The SASL-initial-response message composed by authenticate: the
mechanism name "SCRAM-SHA-256" and the client-first message, framed on
a fresh writer (source: connect.go authenticate, first composition). -/
def saslInitialBuf (scramMsg : List Nat) : WriteBuf :=
  (((WriteBuf.new.BeginMessage AuthenticationSASLInitialResponse).PushString
      (ascii "SCRAM-SHA-256")).PushString scramMsg).EndMessage

/-- The SASL-response message composed by authenticate: the client-final
message, framed on a reset writer (source: connect.go authenticate,
second composition). -/
def saslResponseBuf (scramMsg : List Nat) : WriteBuf :=
  ((WriteBuf.new.BeginMessage AuthenticationSASLResponse).PushString
      scramMsg).EndMessage

/-- The final read loop of authenticate (source: connect.go authenticate,
the loop after the SASL-response is sent): dispatch on the message type,
for authentication messages on the status word; status 0 is accepted,
status 0xc feeds the server-final string to the conversation stepper and
fails hard if verification fails, any other status is an
unexpected-authentication-status failure. -/
def authLoop (conv : ScramConv) : List Message → Except Err Unit
  | [] => Except.ok ()
  | m :: rest =>
    if m.msgType = Authentication then
      match m.PopUint32 with
      | none => Except.error Err.bufferViolation
      | some (status, m1) =>
        if status = 0 then authLoop conv rest
        else if status = 0xc then
          match m1.PopString with
          | none => Except.error Err.bufferViolation
          | some (scramRcv, _) =>
            match conv.stepFinal scramRcv with
            | Except.error e => Except.error (Err.scram e)
            | Except.ok _ => authLoop conv rest
        else Except.error (Err.unexpectedAuthStatus status)
    else if m.msgType = ServerKeyData then
      match m.Discard 32 with
      | none => Except.error Err.bufferViolation
      | some _ => authLoop conv rest
    else if m.msgType = ReadyForCommand then
      match m.PopUint16 with
      | none => Except.error Err.bufferViolation
      | some (_, m1) =>
        match m1.PopUint8 with
        | none => Except.error Err.bufferViolation
        | some _ => authLoop conv rest
    else if m.msgType = ErrorResponse then
      Except.error (Err.errorResponse m.bts)
    else Except.error (Err.unexpectedMessage m.msgType)

/-- What authenticate produced: the framed messages it sent over the
transport, in order, and its return value. -/
structure AuthOut where
  sent : List (List Nat)
  result : Except Err Unit
  deriving Repr

/-- The authenticate sub-exchange (source: connect.go authenticate).
`client` is the result of creating the external SCRAM client (an error
there is returned at once); `batchFirst` is the batch of messages the
transport delivers in response to the SASL-initial-response, and
`batchFinal` the batch delivered in response to the SASL-response. The
single read of the first phase takes the head of `batchFirst`; the
`Finish` call after the 0xb branch is the source buf.Finish(). -/
def authenticate (client : Except String ScramConv)
    (batchFirst batchFinal : List Message) : AuthOut :=
  match client with
  | Except.error e => ⟨[], Except.error (Err.scram e)⟩
  | Except.ok conv =>
    match conv.stepInitial with
    | Except.error e => ⟨[], Except.error (Err.scram e)⟩
    | Except.ok scramMsg =>
      let sent1 := (saslInitialBuf scramMsg).Unwrap
      match batchFirst with
      | [] => ⟨[sent1], Except.error Err.bufferViolation⟩
      | m :: _ =>
        if m.msgType = Authentication then
          match m.PopUint32 with
          | none => ⟨[sent1], Except.error Err.bufferViolation⟩
          | some (authStatus, m1) =>
            if authStatus ≠ 0xb then
              ⟨[sent1], Except.error (Err.unexpectedAuthStatus authStatus)⟩
            else
              match m1.PopString with
              | none => ⟨[sent1], Except.error Err.bufferViolation⟩
              | some (scramRcv, m2) =>
                match conv.stepFirst scramRcv with
                | Except.error e => ⟨[sent1], Except.error (Err.scram e)⟩
                | Except.ok scramMsg2 =>
                  match m2.Finish with
                  | Except.error _ => ⟨[sent1], Except.error Err.bufferViolation⟩
                  | Except.ok () =>
                    ⟨[sent1, (saslResponseBuf scramMsg2).Unwrap],
                      authLoop conv batchFinal⟩
        else if m.msgType = ErrorResponse then
          ⟨[sent1], Except.error (Err.errorResponse m.bts)⟩
        else ⟨[sent1], Except.error (Err.unexpectedMessage m.msgType)⟩

/-- Skip the advertised SASL method list: pop the given number of
length-prefixed byte strings (source: connect.go connect, the loop over
PopBytes in the authentication case). -/
def skipMethods : Nat → Message → Option Message
  | 0, m => some m
  | k + 1, m =>
    match m.PopBytes with
    | none => none
    | some (_, m1) => skipMethods k m1

/-- What connect produced: the framed messages sent over the transport
in order, whether the transport Close was invoked, and the return
value. -/
structure NetOut where
  sent : List (List Nat)
  closeCalled : Bool
  result : Except Err Unit
  deriving Repr

/-- The read loop of connect (source: connect.go connect, the loop over
buf.Next()). `closeFails` tells whether the transport Close returns an
error; `client` and the two batches are passed through to authenticate
when the handshake is challenged. authenticate reads from a buffer of
its own, so when it succeeds the outer loop falls through and resumes
over the remaining messages of the outer buffer; when it fails its
error is returned at once. -/
def connectLoop (closeFails : Bool) (client : Except String ScramConv)
    (batchFirst batchFinal : List Message) : List Message → NetOut
  | [] => ⟨[], false, Except.ok ()⟩
  | m :: rest =>
    if m.msgType = ServerHandshake then
      match m.PopUint16 with
      | none => ⟨[], false, Except.error Err.bufferViolation⟩
      | some (major, m1) =>
        match m1.PopUint16 with
        | none => ⟨[], false, Except.error Err.bufferViolation⟩
        | some (minor, _) =>
          if major ≠ 0 ∨ minor ≠ 8 then
            if closeFails then ⟨[], true, Except.error Err.closeFailure⟩
            else ⟨[], true, Except.error (Err.unsupportedVersion major minor)⟩
          else connectLoop closeFails client batchFirst batchFinal rest
    else if m.msgType = ServerKeyData then
      match m.Discard 32 with
      | none => ⟨[], false, Except.error Err.bufferViolation⟩
      | some _ => connectLoop closeFails client batchFirst batchFinal rest
    else if m.msgType = ReadyForCommand then
      match m.PopUint16 with
      | none => ⟨[], false, Except.error Err.bufferViolation⟩
      | some (_, m1) =>
        match m1.PopUint8 with
        | none => ⟨[], false, Except.error Err.bufferViolation⟩
        | some _ => connectLoop closeFails client batchFirst batchFinal rest
    else if m.msgType = Authentication then
      match m.PopUint32 with
      | none => ⟨[], false, Except.error Err.bufferViolation⟩
      | some (status, m1) =>
        if status = 0 then connectLoop closeFails client batchFirst batchFinal rest
        else
          match m1.PopUint32 with
          | none => ⟨[], false, Except.error Err.bufferViolation⟩
          | some (n, m2) =>
            match skipMethods n m2 with
            | none => ⟨[], false, Except.error Err.bufferViolation⟩
            | some _ =>
              let a := authenticate client batchFirst batchFinal
              match a.result with
              | Except.error e => ⟨a.sent, false, Except.error e⟩
              | Except.ok () =>
                let lp := connectLoop closeFails client batchFirst batchFinal rest
                ⟨a.sent ++ lp.sent, lp.closeCalled, lp.result⟩
    else if m.msgType = ErrorResponse then
      ⟨[], false, Except.error (Err.errorResponse m.bts)⟩
    else ⟨[], false, Except.error (Err.unexpectedMessage m.msgType)⟩

/-- The connection configuration fields connect uses; string values are
byte lists. -/
structure ConnConfig where
  database : List Nat
  user : List Nat
  deriving DecidableEq, Repr

/-- The client-handshake message composed by connect on a fresh writer
(source: connect.go connect, lines 29 to 39), push for push. -/
def clientHandshakeBuf (cfg : ConnConfig) : WriteBuf :=
  (((((((((WriteBuf.new.BeginMessage
      ClientHandshake).PushUint16 0).PushUint16 8).PushUint16 2).PushString
      (ascii "database")).PushString cfg.database).PushString
      (ascii "user")).PushString cfg.user).PushUint16 0).EndMessage

/-- The connect entry point (source: connect.go connect): compose and
send the client handshake, then run the read loop over the batch of
messages the transport delivers in response; the two further batches
feed the authenticate sub-exchange when it is invoked. -/
def connect (cfg : ConnConfig) (closeFails : Bool)
    (client : Except String ScramConv)
    (batch batchFirst batchFinal : List Message) : NetOut :=
  let hs := (clientHandshakeBuf cfg).Unwrap
  let lp := connectLoop closeFails client batchFirst batchFinal batch
  ⟨hs :: lp.sent, lp.closeCalled, lp.result⟩

/-- The client-handshake payload as the spec words it in section 6:
major 0, minor 8, parameter count 2, the length-prefixed string pairs
("database", dbName) and ("user", userName), extension count 0, in that
order, all big-endian. -/
def clientHandshakePayloadSpec (dbName userName : List Nat) : List Nat :=
  pushUint16 0 ++ pushUint16 8 ++ pushUint16 2 ++
  pushStrBytes (ascii "database") ++ pushStrBytes dbName ++
  pushStrBytes (ascii "user") ++ pushStrBytes userName ++ pushUint16 0

/-- The push-for-push composition of the client handshake in connect
unwraps to one framed message whose payload is the spec layout. -/
theorem clientHandshakeBuf_unwrap (cfg : ConnConfig) :
    (clientHandshakeBuf cfg).Unwrap
      = frameMessage ClientHandshake
          (clientHandshakePayloadSpec cfg.database cfg.user) := by
  have h : clientHandshakeBuf cfg
      = (WriteBuf.mk (ClientHandshake :: 0 :: 0 :: 0 :: 0 ::
          clientHandshakePayloadSpec cfg.database cfg.user) (some 1)).EndMessage := by
    simp [clientHandshakeBuf, WriteBuf.new, WriteBuf.BeginMessage,
      WriteBuf.PushUint16, WriteBuf.PushString, WriteBuf.push,
      clientHandshakePayloadSpec, List.append_assoc]
  rw [h, endMessage_unwrap]

/-- C4: the first message connect composes and sends is a framed
client-handshake whose payload is exactly major 0, minor 8, parameter
count 2, the ("database", dbName) and ("user", userName) string pairs,
and extension count 0, in that order, big-endian. -/
theorem connect_first_sent (cfg : ConnConfig) (closeFails : Bool)
    (client : Except String ScramConv)
    (batch batchFirst batchFinal : List Message) :
    (connect cfg closeFails client batch batchFirst batchFinal).sent.head?
      = some (frameMessage ClientHandshake
          (clientHandshakePayloadSpec cfg.database cfg.user)) := by
  simp [connect, clientHandshakeBuf_unwrap]

/-- C1: a server-handshake carrying any version other than (0, 8) makes
connect call the transport Close and (when Close succeeds) return the
unsupported-version failure carrying that version; a server-handshake
carrying exactly (0, 8) continues the read loop without failing. -/
theorem server_handshake_version_gate
    (closeFails : Bool) (client : Except String ScramConv)
    (batchFirst batchFinal : List Message) (m : Message)
    (rest : List Message) (major minor : Nat) (m1 m2 : Message)
    (ht : m.msgType = ServerHandshake)
    (hp1 : m.PopUint16 = some (major, m1))
    (hp2 : m1.PopUint16 = some (minor, m2)) :
    (¬(major = 0 ∧ minor = 8) →
      (connectLoop closeFails client batchFirst batchFinal
          (m :: rest)).closeCalled = true ∧
      connectLoop false client batchFirst batchFinal (m :: rest)
        = ⟨[], true, Except.error (Err.unsupportedVersion major minor)⟩) ∧
    (major = 0 → minor = 8 →
      connectLoop closeFails client batchFirst batchFinal (m :: rest)
        = connectLoop closeFails client batchFirst batchFinal rest) := by
  constructor
  · intro hne
    have hcond : major ≠ 0 ∨ minor ≠ 8 := by tauto
    constructor
    · cases closeFails <;> simp [connectLoop, ht, hp1, hp2, hcond]
    · simp [connectLoop, ht, hp1, hp2, hcond]
  · intro h0 h8
    subst h0; subst h8
    simp [connectLoop, ht, hp1, hp2]

/-- Witness for C1 at a concrete mismatching handshake (version 1.3)
and a concrete matching one (version 0.8). -/
theorem server_handshake_version_gate_witness :
    ((Message.mk 0x76 [0, 1, 0, 3]).msgType = ServerHandshake ∧
      (Message.mk 0x76 [0, 1, 0, 3]).PopUint16
        = some (1, Message.mk 0x76 [0, 3]) ∧
      connectLoop false (Except.error "") [] [] [Message.mk 0x76 [0, 1, 0, 3]]
        = ⟨[], true, Except.error (Err.unsupportedVersion 1 3)⟩) ∧
    connectLoop false (Except.error "") [] [] [Message.mk 0x76 [0, 0, 0, 8]]
      = connectLoop false (Except.error "") [] [] [] := by
  constructor
  · exact ⟨rfl, by decide,
      ((server_handshake_version_gate false (Except.error "") [] []
        (Message.mk 0x76 [0, 1, 0, 3]) [] 1 3
        (Message.mk 0x76 [0, 3]) (Message.mk 0x76 [])
        rfl (by decide) (by decide)).1 (by decide)).2⟩
  · exact (server_handshake_version_gate false (Except.error "") [] []
      (Message.mk 0x76 [0, 0, 0, 8]) [] 0 8
      (Message.mk 0x76 [0, 8]) (Message.mk 0x76 [])
      rfl (by decide) (by decide)).2 rfl rfl

/-- C9: when the version check fails and the transport Close itself
returns an error, connect returns the close error, not the
unsupported-version failure. -/
theorem close_failure_supersedes_version_error
    (client : Except String ScramConv)
    (batchFirst batchFinal : List Message) (m : Message)
    (rest : List Message) (major minor : Nat) (m1 m2 : Message)
    (ht : m.msgType = ServerHandshake)
    (hp1 : m.PopUint16 = some (major, m1))
    (hp2 : m1.PopUint16 = some (minor, m2))
    (hne : ¬(major = 0 ∧ minor = 8)) :
    connectLoop true client batchFirst batchFinal (m :: rest)
      = ⟨[], true, Except.error Err.closeFailure⟩ := by
  have hcond : major ≠ 0 ∨ minor ≠ 8 := by tauto
  simp [connectLoop, ht, hp1, hp2, hcond]

/-- Witness for C9 at a concrete mismatching handshake with a failing
Close: the close error is surfaced. -/
theorem close_failure_supersedes_version_error_witness :
    ((Message.mk 0x76 [0, 9, 0, 9]).msgType = ServerHandshake ∧
      ¬((9 : Nat) = 0 ∧ (9 : Nat) = 8)) ∧
    connectLoop true (Except.error "") [] [] [Message.mk 0x76 [0, 9, 0, 9]]
      = ⟨[], true, Except.error Err.closeFailure⟩ := by
  exact ⟨⟨rfl, by decide⟩,
    close_failure_supersedes_version_error (Except.error "") [] []
      (Message.mk 0x76 [0, 9, 0, 9]) [] 9 9
      (Message.mk 0x76 [0, 9]) (Message.mk 0x76 [])
      rfl (by decide) (by decide) (by decide)⟩

/-- A SCRAM conversation whose every step succeeds with the empty
message (used to instantiate witnesses). -/
def convOk : ScramConv :=
  ⟨Except.ok [], fun _ => Except.ok [], fun _ => Except.ok []⟩

/-- A SCRAM conversation that rejects the final verification signature
of the server (used to instantiate witnesses). -/
def convRefuse : ScramConv :=
  ⟨Except.ok [], fun _ => Except.ok [],
   fun _ => Except.error "server proof verification failed"⟩

/-- The trust-auth scenario batch of the spec: server-handshake (0, 8),
32 zero bytes of key data, authentication status 0, ready-for-command
with header count 0 and transaction state 0. -/
def trustBatch : List Message :=
  [Message.mk ServerHandshake [0, 0, 0, 8],
   Message.mk ServerKeyData (List.replicate 32 0),
   Message.mk Authentication [0, 0, 0, 0],
   Message.mk ReadyForCommand [0, 0, 0]]

/-- C8: an authentication message with status 0 makes the connect read
loop continue with the next message, invoking no authentication
sub-exchange; the sub-exchange is invoked exactly when the status is
nonzero, after the advertised method list has been skipped, a failure
of it being returned at once and a success falling through to resume
the loop over the remaining messages; and the trust-auth scenario
batch completes the handshake successfully with only the client
handshake ever sent. -/
theorem trust_auth_fast_path :
    (∀ (closeFails : Bool) (client : Except String ScramConv)
        (batchFirst batchFinal : List Message) (m : Message)
        (rest : List Message) (m1 : Message),
      m.msgType = Authentication → m.PopUint32 = some (0, m1) →
      connectLoop closeFails client batchFirst batchFinal (m :: rest)
        = connectLoop closeFails client batchFirst batchFinal rest) ∧
    (∀ (closeFails : Bool) (client : Except String ScramConv)
        (batchFirst batchFinal : List Message) (m : Message)
        (rest : List Message) (status : Nat) (m1 : Message) (n : Nat)
        (m2 m3 : Message),
      m.msgType = Authentication → m.PopUint32 = some (status, m1) →
      status ≠ 0 → m1.PopUint32 = some (n, m2) →
      skipMethods n m2 = some m3 →
      ((∀ e, (authenticate client batchFirst batchFinal).result
            = Except.error e →
        connectLoop closeFails client batchFirst batchFinal (m :: rest)
          = ⟨(authenticate client batchFirst batchFinal).sent, false,
             Except.error e⟩) ∧
       ((authenticate client batchFirst batchFinal).result = Except.ok () →
        connectLoop closeFails client batchFirst batchFinal (m :: rest)
          = ⟨(authenticate client batchFirst batchFinal).sent
              ++ (connectLoop closeFails client batchFirst batchFinal
                    rest).sent,
             (connectLoop closeFails client batchFirst batchFinal
                rest).closeCalled,
             (connectLoop closeFails client batchFirst batchFinal
                rest).result⟩))) ∧
    (∀ (cfg : ConnConfig) (closeFails : Bool)
        (client : Except String ScramConv),
      connect cfg closeFails client trustBatch [] []
        = ⟨[(clientHandshakeBuf cfg).Unwrap], false, Except.ok ()⟩) := by
  refine ⟨?_, ?_, ?_⟩
  · intro closeFails client batchFirst batchFinal m rest m1 ht hp
    simp [connectLoop, ht, hp, ServerHandshake, ServerKeyData,
      ReadyForCommand, Authentication, ErrorResponse]
  · intro closeFails client batchFirst batchFinal m rest status m1 n m2 m3
      ht hp hs0 hp2 hskip
    constructor
    · intro e he
      simp [connectLoop, ht, hp, hs0, hp2, hskip, he, ServerHandshake,
        ServerKeyData, ReadyForCommand, Authentication, ErrorResponse]
    · intro hok
      simp [connectLoop, ht, hp, hs0, hp2, hskip, hok, ServerHandshake,
        ServerKeyData, ReadyForCommand, Authentication, ErrorResponse]
  · intro cfg closeFails client
    rfl

/-- Witness for C8 at the concrete trust-auth authentication message,
at a concrete nonzero-status challenge whose successful authentication
falls through to an error-response remaining in the outer batch, and
at the concrete trust-auth scenario batch. -/
theorem trust_auth_fast_path_witness :
    ((Message.mk 0x52 [0, 0, 0, 0]).msgType = Authentication ∧
      connectLoop false (Except.error "") [] []
          [Message.mk 0x52 [0, 0, 0, 0], Message.mk 0x5a [0, 0, 0]]
        = connectLoop false (Except.error "") [] []
            [Message.mk 0x5a [0, 0, 0]]) ∧
    ((authenticate (Except.ok convOk)
        [Message.mk 0x52 [0, 0, 0, 0xb, 0, 0, 0, 0]] []).result
      = Except.ok () ∧
      connectLoop false (Except.ok convOk)
          [Message.mk 0x52 [0, 0, 0, 0xb, 0, 0, 0, 0]] []
          [Message.mk 0x52 [0, 0, 0, 1, 0, 0, 0, 0], Message.mk 0x45 [7]]
        = ⟨(authenticate (Except.ok convOk)
              [Message.mk 0x52 [0, 0, 0, 0xb, 0, 0, 0, 0]] []).sent,
           false, Except.error (Err.errorResponse [7])⟩) ∧
    connect (ConnConfig.mk [] []) false (Except.error "") trustBatch [] []
      = ⟨[(clientHandshakeBuf (ConnConfig.mk [] [])).Unwrap], false,
         Except.ok ()⟩ := by
  refine ⟨⟨rfl, trust_auth_fast_path.1 false (Except.error "") [] []
      (Message.mk 0x52 [0, 0, 0, 0]) [Message.mk 0x5a [0, 0, 0]]
      (Message.mk 0x52 []) rfl (by decide)⟩, ⟨?_, ?_⟩,
    trust_auth_fast_path.2.2 (ConnConfig.mk [] []) false (Except.error "")⟩
  · rfl
  · have h := (trust_auth_fast_path.2.1 false (Except.ok convOk)
      [Message.mk 0x52 [0, 0, 0, 0xb, 0, 0, 0, 0]] []
      (Message.mk 0x52 [0, 0, 0, 1, 0, 0, 0, 0]) [Message.mk 0x45 [7]] 1
      (Message.mk 0x52 [0, 0, 0, 0]) 0 (Message.mk 0x52 [])
      (Message.mk 0x52 []) rfl (by decide) (by decide) (by decide)
      (by rfl)).2 (by rfl)
    rw [h]
    rfl

/-- C5: an error-response message is returned as the decoded structured
error immediately, in the connect read loop, in the first authenticate
read phase, and in the final authenticate read loop, independently of
any messages that follow. -/
theorem error_response_short_circuit (m : Message)
    (ht : m.msgType = ErrorResponse) :
    (∀ (closeFails : Bool) (client : Except String ScramConv)
        (batchFirst batchFinal rest : List Message),
      connectLoop closeFails client batchFirst batchFinal (m :: rest)
        = ⟨[], false, Except.error (Err.errorResponse m.bts)⟩) ∧
    (∀ (conv : ScramConv) (s0 : List Nat)
        (batchRest batchFinal : List Message),
      conv.stepInitial = Except.ok s0 →
      authenticate (Except.ok conv) (m :: batchRest) batchFinal
        = ⟨[(saslInitialBuf s0).Unwrap],
           Except.error (Err.errorResponse m.bts)⟩) ∧
    (∀ (conv : ScramConv) (rest : List Message),
      authLoop conv (m :: rest) = Except.error (Err.errorResponse m.bts)) := by
  refine ⟨?_, ?_, ?_⟩
  · intro closeFails client batchFirst batchFinal rest
    simp [connectLoop, ht, ServerHandshake, ServerKeyData,
      ReadyForCommand, Authentication, ErrorResponse]
  · intro conv s0 batchRest batchFinal h0
    simp [authenticate, h0, ht, Authentication, ErrorResponse]
  · intro conv rest
    simp [authLoop, ht, ServerKeyData, ReadyForCommand,
      Authentication, ErrorResponse]

/-- Witness for C5 at a concrete error-response message followed by a
further message in each of the three read states. -/
theorem error_response_short_circuit_witness :
    ((Message.mk 0x45 [1, 2, 3]).msgType = ErrorResponse ∧
      convOk.stepInitial = Except.ok []) ∧
    connectLoop false (Except.error "") [] []
        [Message.mk 0x45 [1, 2, 3], Message.mk 0x5a [0, 0, 0]]
      = ⟨[], false, Except.error (Err.errorResponse [1, 2, 3])⟩ ∧
    authenticate (Except.ok convOk)
        [Message.mk 0x45 [1, 2, 3], Message.mk 0x5a [0, 0, 0]] []
      = ⟨[(saslInitialBuf []).Unwrap],
         Except.error (Err.errorResponse [1, 2, 3])⟩ ∧
    authLoop convOk [Message.mk 0x45 [1, 2, 3], Message.mk 0x5a [0, 0, 0]]
      = Except.error (Err.errorResponse [1, 2, 3]) := by
  have h := error_response_short_circuit (Message.mk 0x45 [1, 2, 3]) rfl
  exact ⟨⟨rfl, rfl⟩,
    h.1 false (Except.error "") [] [] [Message.mk 0x5a [0, 0, 0]],
    h.2.1 convOk [] [Message.mk 0x5a [0, 0, 0]] [] rfl,
    h.2.2 convOk [Message.mk 0x5a [0, 0, 0]]⟩

/-- C6: after the SASL-initial-response is sent, the status of the next
authentication message decides the outcome: status 0xb pops the
server-first string, feeds it to the conversation stepper and sends the
derived client-final message as the SASL-response; any other status
fails with the unexpected-authentication-status error, with no
SASL-response ever sent. -/
theorem sasl_initial_status_gate (conv : ScramConv) (s0 : List Nat)
    (h0 : conv.stepInitial = Except.ok s0) (m : Message)
    (batchRest batchFinal : List Message) (status : Nat) (m1 : Message)
    (ht : m.msgType = Authentication)
    (hp : m.PopUint32 = some (status, m1)) :
    (status ≠ 0xb →
      authenticate (Except.ok conv) (m :: batchRest) batchFinal
        = ⟨[(saslInitialBuf s0).Unwrap],
           Except.error (Err.unexpectedAuthStatus status)⟩) ∧
    (status = 0xb → ∀ (scramRcv : List Nat) (m2 : Message),
      m1.PopString = some (scramRcv, m2) →
      ((∀ e, conv.stepFirst scramRcv = Except.error e →
          authenticate (Except.ok conv) (m :: batchRest) batchFinal
            = ⟨[(saslInitialBuf s0).Unwrap], Except.error (Err.scram e)⟩) ∧
       (∀ s1, conv.stepFirst scramRcv = Except.ok s1 → m2.bts = [] →
          authenticate (Except.ok conv) (m :: batchRest) batchFinal
            = ⟨[(saslInitialBuf s0).Unwrap, (saslResponseBuf s1).Unwrap],
               authLoop conv batchFinal⟩))) := by
  constructor
  · intro hs
    simp [authenticate, h0, ht, hp, hs, Authentication, ErrorResponse]
  · intro hs scramRcv m2 hps
    subst hs
    constructor
    · intro e he
      simp [authenticate, h0, ht, hp, hps, he,
        Authentication, ErrorResponse]
    · intro s1 hok hbts
      simp [authenticate, h0, ht, hp, hps, hok, hbts, Message.Finish,
        Authentication, ErrorResponse]

/-- Witness for C6 at a concrete non-0xb status (5) and at a concrete
0xb exchange whose server-first string is empty. -/
theorem sasl_initial_status_gate_witness :
    (convOk.stepInitial = Except.ok [] ∧
      (Message.mk 0x52 [0, 0, 0, 5]).msgType = Authentication ∧
      authenticate (Except.ok convOk) [Message.mk 0x52 [0, 0, 0, 5]] []
        = ⟨[(saslInitialBuf []).Unwrap],
           Except.error (Err.unexpectedAuthStatus 5)⟩) ∧
    authenticate (Except.ok convOk)
        [Message.mk 0x52 [0, 0, 0, 0xb, 0, 0, 0, 0]] []
      = ⟨[(saslInitialBuf []).Unwrap, (saslResponseBuf []).Unwrap],
         authLoop convOk []⟩ := by
  constructor
  · exact ⟨rfl, rfl,
      (sasl_initial_status_gate convOk [] rfl (Message.mk 0x52 [0, 0, 0, 5])
        [] [] 5 (Message.mk 0x52 []) rfl (by decide)).1 (by decide)⟩
  · have h := (sasl_initial_status_gate convOk [] rfl
      (Message.mk 0x52 [0, 0, 0, 0xb, 0, 0, 0, 0]) [] [] 0xb
      (Message.mk 0x52 [0, 0, 0, 0]) rfl (by decide)).2 rfl []
      (Message.mk 0x52 []) (by decide)
    exact h.2 [] rfl rfl

/-- C7: in the final authenticate read loop, an authentication message
with status 0xc has its server-final string fed to the conversation
stepper, a verification error there being returned as a hard failure;
status 0 is accepted with no further fields read; every other status
fails with the unexpected-authentication-status error. -/
theorem auth_final_status_gate (conv : ScramConv) (m : Message)
    (rest : List Message) (status : Nat) (m1 : Message)
    (ht : m.msgType = Authentication)
    (hp : m.PopUint32 = some (status, m1)) :
    (status = 0 → authLoop conv (m :: rest) = authLoop conv rest) ∧
    (status = 0xc → ∀ (scramRcv : List Nat) (m2 : Message),
      m1.PopString = some (scramRcv, m2) →
      ((∀ e, conv.stepFinal scramRcv = Except.error e →
          authLoop conv (m :: rest) = Except.error (Err.scram e)) ∧
       (∀ v, conv.stepFinal scramRcv = Except.ok v →
          authLoop conv (m :: rest) = authLoop conv rest))) ∧
    (status ≠ 0 → status ≠ 0xc →
      authLoop conv (m :: rest)
        = Except.error (Err.unexpectedAuthStatus status)) := by
  refine ⟨?_, ?_, ?_⟩
  · intro hs
    subst hs
    simp [authLoop, ht, hp, ServerKeyData, ReadyForCommand,
      Authentication, ErrorResponse]
  · intro hs scramRcv m2 hps
    subst hs
    constructor
    · intro e he
      simp [authLoop, ht, hp, hps, he, ServerKeyData, ReadyForCommand,
        Authentication, ErrorResponse]
    · intro v hok
      simp [authLoop, ht, hp, hps, hok, ServerKeyData, ReadyForCommand,
        Authentication, ErrorResponse]
  · intro hs0 hsc
    simp [authLoop, ht, hp, hs0, hsc, ServerKeyData, ReadyForCommand,
      Authentication, ErrorResponse]

/-- Witness for C7 at concrete messages: status 0 continues, a status
0xc message whose verification fails is a hard failure, and status 7
is the unexpected-status failure. -/
theorem auth_final_status_gate_witness :
    ((Message.mk 0x52 [0, 0, 0, 0]).msgType = Authentication ∧
      authLoop convRefuse
          [Message.mk 0x52 [0, 0, 0, 0], Message.mk 0x5a [0, 0, 0]]
        = authLoop convRefuse [Message.mk 0x5a [0, 0, 0]]) ∧
    authLoop convRefuse [Message.mk 0x52 [0, 0, 0, 0xc, 0, 0, 0, 0]]
      = Except.error (Err.scram "server proof verification failed") ∧
    authLoop convOk [Message.mk 0x52 [0, 0, 0, 7]]
      = Except.error (Err.unexpectedAuthStatus 7) := by
  refine ⟨⟨rfl, ?_⟩, ?_, ?_⟩
  · exact (auth_final_status_gate convRefuse (Message.mk 0x52 [0, 0, 0, 0])
      [Message.mk 0x5a [0, 0, 0]] 0 (Message.mk 0x52 []) rfl (by decide)).1 rfl
  · have h := (auth_final_status_gate convRefuse
      (Message.mk 0x52 [0, 0, 0, 0xc, 0, 0, 0, 0]) [] 0xc
      (Message.mk 0x52 [0, 0, 0, 0]) rfl (by decide)).2.1 rfl []
      (Message.mk 0x52 []) (by decide)
    exact h.1 "server proof verification failed" rfl
  · exact (auth_final_status_gate convOk (Message.mk 0x52 [0, 0, 0, 7])
      [] 7 (Message.mk 0x52 []) rfl (by decide)).2.2 (by decide) (by decide)

/-- The dynamic values a JSON credentials map can hold after
unmarshalling: a string, a number (a float64 in Go, modelled by its
integrality and integer value, the only facts the validation reads), a
boolean, null, or any other JSON value (array or object). -/
inductive JValue
  | jstr (s : String)
  | jnum (isIntegral : Bool) (v : Int)
  | jbool (b : Bool)
  | jnull
  | jother
  deriving DecidableEq, Repr

/-- The credentials record (source: connect.go credentials struct);
optional fields are Option; certData keeps the string whose bytes Go
stores. -/
structure Credentials where
  host : Option String
  port : Option Int
  user : String
  database : Option String
  password : Option String
  certData : Option String
  tlsSecurity : Option String
  deriving DecidableEq, Repr

/-- The `port` block of validateCredentials: absent is fine; a number
that equals its truncation and lies in 1 ..= 65535 is accepted, any
other value is rejected (source: connect.go validateCredentials). -/
def parsePort (v : Option JValue) : Except String (Option Int) :=
  match v with
  | none => Except.ok none
  | some (JValue.jnum ip p) =>
      if ip = true ∧ 1 ≤ p ∧ p ≤ 65535 then Except.ok (some p)
      else Except.error "invalid `port` value"
  | some _ => Except.error "invalid `port` value"

/-- The `user` block of validateCredentials: the key is required and
its value must be a string. -/
def parseUser (v : Option JValue) : Except String String :=
  match v with
  | none => Except.error "`user` key is required"
  | some (JValue.jstr u) => Except.ok u
  | some _ => Except.error "`user` must be a string"

/-- The `host` block of validateCredentials: absent or equal to the
empty string is skipped; a non-string value is rejected. -/
def parseHost (v : Option JValue) : Except String (Option String) :=
  match v with
  | none => Except.ok none
  | some w =>
    if w = JValue.jstr "" then Except.ok none
    else
      match w with
      | JValue.jstr h => Except.ok (some h)
      | _ => Except.error "`host` must be a string"

/-- An optional string-valued key of validateCredentials (`database`,
`password`, `tls_cert_data`): absent is fine, non-string is rejected
with the given message. -/
def parseOptStr (msg : String) (v : Option JValue) :
    Except String (Option String) :=
  match v with
  | none => Except.ok none
  | some (JValue.jstr s) => Except.ok (some s)
  | some _ => Except.error msg

/-- The `tls_verify_hostname` block of validateCredentials: a boolean
maps to the "strict" or "no_host_verification" security value. -/
def parseVerify (v : Option JValue) : Except String (Option String) :=
  match v with
  | none => Except.ok none
  | some (JValue.jbool b) =>
      Except.ok (some (if b then "strict" else "no_host_verification"))
  | some _ => Except.error "`tls_verify_hostname` must be a boolean"

/-- The trailing compatibility check of validateCredentials between a
boolean `tls_verify_hostname` and a string `tls_security`. -/
def tlsCompatCheck (verifyVal securityVal : Option JValue)
    (c : Credentials) : Except String Credentials :=
  match verifyVal, securityVal with
  | some (JValue.jbool verify), some (JValue.jstr security) =>
    if (verify = true ∧
          (security = "insecure" ∨ security = "no_host_verification")) ∨
       (verify = false ∧ security = "strict") then
      Except.error
        "values tls_verify_hostname and tls_security are incompatible"
    else Except.ok c
  | _, _ => Except.ok c

/-- Credentials validation (source: connect.go validateCredentials),
block for block in source order; the map is modelled as a lookup
function. -/
def validateCredentials (data : String → Option JValue) :
    Except String Credentials :=
  Except.bind (parsePort (data "port")) fun port =>
  Except.bind (parseUser (data "user")) fun user =>
  Except.bind (parseHost (data "host")) fun host =>
  Except.bind (parseOptStr "`database` must be a string"
      (data "database")) fun database =>
  Except.bind (parseOptStr "`password` must be a string"
      (data "password")) fun password =>
  Except.bind (parseOptStr "`tls_cert_data` must be a string"
      (data "tls_cert_data")) fun certData =>
  Except.bind (parseVerify (data "tls_verify_hostname")) fun tlsFromVerify =>
  Except.bind
    (match data "tls_security" with
     | none => Except.ok tlsFromVerify
     | some (JValue.jstr s) => Except.ok (some s)
     | some _ => Except.error "`tls_security` must be a string")
    fun tlsSecurity =>
  tlsCompatCheck (data "tls_verify_hostname") (data "tls_security")
    ⟨host, port, user, database, password, certData, tlsSecurity⟩

/-- Inversion of a successful Except bind. -/
theorem except_bind_ok {ε α β : Type} {x : Except ε α} {f : α → Except ε β}
    {b : β} (h : Except.bind x f = Except.ok b) :
    ∃ a, x = Except.ok a ∧ f a = Except.ok b := by
  cases x with
  | error e => exact absurd h (by simp [Except.bind])
  | ok a => exact ⟨a, rfl, by simpa [Except.bind] using h⟩

/-- C10: validateCredentials succeeds only when the map holds a `user`
key with a string value, and a map holding nothing but such a `user`
key validates, so every other recognized key is optional. -/
theorem creds_user_required (data : String → Option JValue) :
    (∀ c, validateCredentials data = Except.ok c →
      ∃ u, data "user" = some (JValue.jstr u)) ∧
    (∀ u, validateCredentials
        (fun k => if k = "user" then some (JValue.jstr u) else none)
      = Except.ok ⟨none, none, u, none, none, none, none⟩) := by
  constructor
  · intro c h
    unfold validateCredentials at h
    obtain ⟨port, hp, h⟩ := except_bind_ok h
    obtain ⟨user, hu, h⟩ := except_bind_ok h
    cases hval : data "user" with
    | none =>
      rw [hval] at hu
      exact absurd hu (by simp [parseUser])
    | some v =>
      cases v with
      | jstr s => exact ⟨s, rfl⟩
      | jnum ip p => rw [hval] at hu; exact absurd hu (by simp [parseUser])
      | jbool b => rw [hval] at hu; exact absurd hu (by simp [parseUser])
      | jnull => rw [hval] at hu; exact absurd hu (by simp [parseUser])
      | jother => rw [hval] at hu; exact absurd hu (by simp [parseUser])
  · intro u
    rfl

/-- Witness for C10: the singleton map carrying only user = "edgedb"
validates, and the success implies the `user` string key is present. -/
theorem creds_user_required_witness :
    validateCredentials
        (fun k => if k = "user" then some (JValue.jstr "edgedb") else none)
      = Except.ok ⟨none, none, "edgedb", none, none, none, none⟩ ∧
    ∃ u, (fun k => if k = "user" then some (JValue.jstr "edgedb") else none)
        "user" = some (JValue.jstr u) := by
  have h2 := (creds_user_required
    (fun k => if k = "user" then some (JValue.jstr "edgedb") else none)).2
    "edgedb"
  exact ⟨h2, (creds_user_required
    (fun k => if k = "user" then some (JValue.jstr "edgedb") else none)).1
    ⟨none, none, "edgedb", none, none, none, none⟩ h2⟩

/-- Witness for C2 at concrete messages: a two-byte pop on one byte
fails, and a byte-string pop whose length prefix declares four bytes
with only two remaining fails. -/
theorem readop_underrun_safety_witness :
    ReadOp.run ReadOp.popUint16Op (Message.mk 0 [0xff]) = none ∧
    ReadOp.run ReadOp.popBytesOp (Message.mk 0 [0, 0, 0, 4, 1, 2]) = none := by
  exact ⟨(readop_underrun_safety ReadOp.popUint16Op
      (Message.mk 0 [0xff])).mpr (by decide),
    (readop_underrun_safety ReadOp.popBytesOp
      (Message.mk 0 [0, 0, 0, 4, 1, 2])).mpr (by decide)⟩

/-- Witness for C4 at a concrete configuration, the framed bytes spelt
out: tag 0x56, length 43, version 0.8, two parameters, the pairs
("database", "db") and ("user", "u"), zero extensions. -/
theorem connect_first_sent_witness :
    (connect (ConnConfig.mk (ascii "db") (ascii "u")) false
        (Except.error "") [] [] []).sent.head?
      = some [0x56, 0, 0, 0, 43,
          0, 0, 0, 8, 0, 2,
          0, 0, 0, 8, 100, 97, 116, 97, 98, 97, 115, 101,
          0, 0, 0, 2, 100, 98,
          0, 0, 0, 4, 117, 115, 101, 114,
          0, 0, 0, 1, 117,
          0, 0] := by
  rw [connect_first_sent (ConnConfig.mk (ascii "db") (ascii "u")) false
    (Except.error "") [] [] []]
  decide
